import Mathlib

/-!
Shallow embedding of the driver-abstraction layer of the repository:
`src/camera/camera_driver.c` (camera driver registry, selector and
lifecycle) and `src/gl.c` (GL render driver: viewport/aspect math,
vsync/non-block control, FPS accounting, frame submission).

C pointers that are only checked for NULL-ness become `Option`,
C function pointers become Lean functions (or `Bool` presence flags when
only their presence is observable), machine integers become `Nat`/`Int`,
C `float` arithmetic is modelled over `ℚ`, and the observable side
effects (log lines, message-queue pushes, callback and backend
invocations, GL commands) become explicit event lists.
-/

/- ## Camera driver layer (`src/camera/camera_driver.c`) -/

/-- Observable events of the camera lifecycle code.  Log lines are kept
structurally (`err_driver_not_found name` stands for the
`RARCH_ERR` line naming the missing driver,
`log_ident s` for one `RARCH_LOG_OUTPUT("\t%s\n", ident)` line,
`msg_disabled` for `msg_queue_push(.., "Camera is explicitly disabled.", ..)`,
`err_init_failed` for the `RARCH_ERR("Failed to initialize camera driver...")`
line). -/
inductive CamEvent where
  | find_driver
  | backend_init
  | initialized_cb
  | deinitialized_cb
  | free_op
  | err_driver_not_found (name : String)
  | log_available_header
  | log_ident (s : String)
  | warn_default_first
  | err_init_failed
  | msg_disabled
deriving DecidableEq, Repr

/-- The camera driver descriptor `camera_driver_t` (from
`src/camera/camera_driver.h` usage in `camera_driver.c`): an `init`
operation producing an abstract handle (modelled as `ℕ`) or `NULL`, and the
`free`/`start`/`stop`/`poll` operations.  `free`, `stop` and `poll` are
only ever NULL-checked and invoked for effect, so only their presence is
modelled; `start` returns a `bool`, so it is an optional function. -/
structure camera_driver_t where
  init : Option String → ℕ → ℕ → ℕ → Option ℕ
  free : Bool
  start : Option (ℕ → Bool)
  stop : Bool
  poll : Bool
  ident : String

/-- The relevant fields of `g_settings.camera`. -/
structure camera_settings where
  driver : String
  device : String
  allow : Bool
  width : ℕ
  height : ℕ

/-- The relevant fields of `g_extern.system.camera_callback`
(`retro_camera_callback`): capability flags, requested dimensions, and
presence of the optional `initialized` / `deinitialized` notification
callbacks (they take no arguments, so presence is all that is
observable besides the invocation event). -/
structure retro_camera_callback where
  caps : ℕ
  width : ℕ
  height : ℕ
  initialized : Bool
  deinitialized : Bool

/-- The camera slice of the global `driver` struct: the selected
descriptor, the live handle, and the `camera_active` flag. -/
structure driver_state where
  camera : Option camera_driver_t
  camera_data : Option ℕ
  camera_active : Bool

/-- Lookup `camera_driver_find_handle`: the registry array is a descriptor list
terminated by a `NULL` sentinel; indexing past the descriptors hits the
sentinel, i.e. yields `none`. -/
def camera_driver_find_handle (drivers : List camera_driver_t) (i : ℕ) :
    Option camera_driver_t :=
  drivers[i]?

/-- Lookup `camera_driver_find_ident`. -/
def camera_driver_find_ident (drivers : List camera_driver_t) (i : ℕ) :
    Option String :=
  (drivers[i]?).map camera_driver_t.ident

/-- The identifier-enumeration loop
`for (i = 0; camera_driver_find_handle(i); i++)` shared by
`config_get_camera_driver_options` and `find_camera_driver`. -/
def identsFrom (drivers : List camera_driver_t) (i : ℕ) : List String :=
  match h : camera_driver_find_handle drivers i with
  | none => []
  | some d => d.ident :: identsFrom drivers (i + 1)
termination_by drivers.length - i
decreasing_by
  simp only [camera_driver_find_handle] at h
  have hi : i < drivers.length := by
    by_contra hc
    rw [List.getElem?_eq_none (by omega)] at h
    exact Option.noConfusion h
  omega

/-- Enumeration `config_get_camera_driver_options` as the list of enumerated driver
identifiers; the C function returns them joined with `"|"`. -/
def camera_driver_ident_list (drivers : List camera_driver_t) : List String :=
  identsFrom drivers 0

/-- The joined option string returned by `config_get_camera_driver_options`. -/
def config_get_camera_driver_options (drivers : List camera_driver_t) : String :=
  String.intercalate "|" (camera_driver_ident_list drivers)

/-- Modelled from the spec: `find_driver_index` lives outside this source
slice (only its caller `find_camera_driver` is here).  Per the spec, the
selector linearly scans the registry for the configured name and an
empty or unknown name is no match. -/
def find_driver_index (drivers : List camera_driver_t) (name : String) :
    Option ℕ :=
  if name = "" then none
  else drivers.findIdx? (fun d => d.ident = name)

/-- Result of `find_camera_driver`: the new `driver.camera`, the emitted
diagnostics, and whether `rarch_fail` aborted (handle 0 was `NULL`). -/
structure find_result where
  camera : Option camera_driver_t
  events : List CamEvent
  fatal : Bool

/-- Selector `find_camera_driver`: resolve `g_settings.camera.driver` to a registry
index; on no match, log the name, enumerate all identifiers, warn, and
default to index 0 (fatal only if even that is `NULL`).  Selection reads
the registry and emits diagnostics only; the registry itself is immutable
(it is a parameter here, mirroring the `static const` array). -/
def find_camera_driver (drivers : List camera_driver_t) (name : String) :
    find_result :=
  match find_driver_index drivers name with
  | some i => ⟨camera_driver_find_handle drivers i, [], false⟩
  | none =>
      let cam := camera_driver_find_handle drivers 0
      ⟨cam,
        CamEvent.err_driver_not_found name ::
          CamEvent.log_available_header ::
          ((identsFrom drivers 0).map CamEvent.log_ident ++
            [CamEvent.warn_default_first]),
        cam.isNone⟩

/-- The device-hint argument of the backend init call:
`*g_settings.camera.device ? g_settings.camera.device : NULL`. -/
def camera_device_arg (s : camera_settings) : Option String :=
  if s.device = "" then none else some s.device

/-- The width argument: `g_settings.camera.width ? g_settings.camera.width
: g_extern.system.camera_callback.width`. -/
def camera_width_arg (s : camera_settings) (cb : retro_camera_callback) : ℕ :=
  if s.width ≠ 0 then s.width else cb.width

/-- The height argument, analogous to the width argument. -/
def camera_height_arg (s : camera_settings) (cb : retro_camera_callback) : ℕ :=
  if s.height ≠ 0 then s.height else cb.height

/-- Lifecycle `init_camera`: returns immediately if a handle is live; otherwise
resolves the driver, calls its backend `init`, on failure logs and marks
the kind inactive, and finally invokes the `initialized` notification
callback when present (the source invokes it regardless of whether the
backend init produced a handle). -/
def init_camera (drivers : List camera_driver_t) (s : camera_settings)
    (cb : retro_camera_callback) (st : driver_state) :
    driver_state × List CamEvent :=
  if st.camera_data.isSome then (st, [])
  else
    let fr := find_camera_driver drivers s.driver
    let st1 : driver_state := { st with camera := fr.camera }
    match fr.camera with
    | none => (st1, CamEvent.find_driver :: fr.events)
    | some drv =>
        let data := drv.init (camera_device_arg s) cb.caps
          (camera_width_arg s cb) (camera_height_arg s cb)
        let st2 : driver_state :=
          { st1 with
            camera_data := data
            camera_active := if data.isNone then false else st1.camera_active }
        (st2,
          (CamEvent.find_driver :: fr.events) ++
            [CamEvent.backend_init] ++
            (if data.isNone then [CamEvent.err_init_failed] else []) ++
            (if cb.initialized then [CamEvent.initialized_cb] else []))

/-- Lifecycle `uninit_camera`: when both a live handle and a selected driver exist,
invoke the `deinitialized` notification callback (when present) and then
the `free` operation of the descriptor (when present); in every case clear the
handle. -/
def uninit_camera (cb : retro_camera_callback) (st : driver_state) :
    driver_state × List CamEvent :=
  match st.camera_data, st.camera with
  | some _, some drv =>
      ({ st with camera_data := none },
        (if cb.deinitialized then [CamEvent.deinitialized_cb] else []) ++
          (if drv.free then [CamEvent.free_op] else []))
  | _, _ => ({ st with camera_data := none }, [])

/-- Lifecycle `driver_camera_start`: with a selected driver, a live handle and a
`start` operation, either delegate to the backend (permission granted) or
fail with the distinct "Camera is explicitly disabled." message; in every
other state fail silently. -/
def driver_camera_start (s : camera_settings) (st : driver_state) :
    Bool × List CamEvent :=
  match st.camera, st.camera_data with
  | some drv, some data =>
      match drv.start with
      | some startOp =>
          if s.allow then (startOp data, [])
          else (false, [CamEvent.msg_disabled])
      | none => (false, [])
  | _, _ => (false, [])

/-- Lifecycle `driver_camera_stop`: delegate when driver, `stop` op and handle all
exist. -/
def driver_camera_stop (st : driver_state) : List CamEvent :=
  match st.camera, st.camera_data with
  | some drv, some _ => if drv.stop then [] else []
  | _, _ => []

/-- Modelled from the spec: `camera_null`, the no-op fallback camera
driver ("last non-sentinel descriptor is always a no-op/null
implementation"); its source file is outside this slice.  Its init always
yields a handle and its operations do nothing. -/
def camera_null : camera_driver_t :=
  { init := fun _ _ _ _ => some 0
    free := true
    start := some (fun _ => true)
    stop := true
    poll := true
    ident := "null" }

/-- The compile-time configuration selecting which platform backends are
present in the registry (`HAVE_V4L2`, `EMSCRIPTEN`, `ANDROID`,
`MAC_OS_X_VERSION_10_7`/`__IPHONE_4_0`). -/
structure build_config where
  have_v4l2 : Bool
  emscripten : Bool
  android : Bool
  osx_10_7 : Bool
  iphone_4_0 : Bool

/-- The platform camera backends referenced by the registry; they are
external collaborators (declared `extern`, defined outside this slice),
so they are parameters of the registry. -/
structure external_camera_drivers where
  v4l2 : camera_driver_t
  rwebcam : camera_driver_t
  android : camera_driver_t
  apple : camera_driver_t

/-- The `camera_drivers` registry array (the trailing `NULL` sentinel is
implicit: lookups past the end yield `none`). -/
def camera_drivers (ext : external_camera_drivers) (cfg : build_config) :
    List camera_driver_t :=
  (if cfg.have_v4l2 then [ext.v4l2] else []) ++
    (if cfg.emscripten then [ext.rwebcam] else []) ++
    (if cfg.android then [ext.android] else []) ++
    (if cfg.osx_10_7 || cfg.iphone_4_0 then [ext.apple] else []) ++
    [camera_null]

/-- A camera backend whose init always fails, for exercising the failure
path of `init_camera`. -/
def failing_camera_driver : camera_driver_t :=
  { init := fun _ _ _ _ => none
    free := false
    start := none
    stop := false
    poll := false
    ident := "fail" }

/- ## GL render driver (`src/gl.c`) -/

/-- The conversion a C `(int)` cast applies to a floating value:
truncation toward zero.  `float` arithmetic is modelled over `ℚ`. -/
def c_int_of_float (x : ℚ) : ℤ :=
  if 0 ≤ x then ⌊x⌋ else ⌈x⌉

/-- A viewport as passed to `glViewport`: origin and extent, kept as the
exact values of the `float` expressions in the source. -/
structure viewport where
  x : ℚ
  y : ℚ
  w : ℚ
  h : ℚ
deriving DecidableEq, Repr

/-- Constant `float desired_aspect = 4.0/3;` in `resize`. -/
def desired_aspect : ℚ := 4 / 3

/-- Callback `resize` (the GLFW window-size callback): with aspect lock on,
classify the device aspect against the desired aspect by comparing
`(int)(aspect*1000)`, then letterbox horizontally, letterbox vertically,
or use the full surface. -/
def resize (keep_aspect : Bool) (width height : ℤ) : viewport :=
  if keep_aspect then
    let device_aspect : ℚ := (width : ℚ) / (height : ℚ)
    if c_int_of_float (device_aspect * 1000) >
        c_int_of_float (desired_aspect * 1000) then
      let delta : ℚ := (desired_aspect / device_aspect - 1) / 2 + 1/2
      ⟨(width : ℚ) * (1/2 - delta), 0, 2 * (width : ℚ) * delta, (height : ℚ)⟩
    else if c_int_of_float (device_aspect * 1000) <
        c_int_of_float (desired_aspect * 1000) then
      let delta : ℚ := (device_aspect / desired_aspect - 1) / 2 + 1/2
      ⟨0, (height : ℚ) * (1/2 - delta), (width : ℚ), 2 * (height : ℚ) * delta⟩
    else
      ⟨0, 0, (width : ℚ), (height : ℚ)⟩
  else
    ⟨0, 0, (width : ℚ), (height : ℚ)⟩

/-- The aspect comparison exactly as the specification words it: rounding
`aspect * 1000` to the nearest integer, where the source truncates with an
`(int)` cast.  Kept only to compare against `resize`. -/
def resize_spec_round (keep_aspect : Bool) (width height : ℤ) : viewport :=
  if keep_aspect then
    let device_aspect : ℚ := (width : ℚ) / (height : ℚ)
    if round (device_aspect * 1000) > round (desired_aspect * 1000) then
      let delta : ℚ := (desired_aspect / device_aspect - 1) / 2 + 1/2
      ⟨(width : ℚ) * (1/2 - delta), 0, 2 * (width : ℚ) * delta, (height : ℚ)⟩
    else if round (device_aspect * 1000) < round (desired_aspect * 1000) then
      let delta : ℚ := (device_aspect / desired_aspect - 1) / 2 + 1/2
      ⟨0, (height : ℚ) * (1/2 - delta), (width : ℚ), 2 * (height : ℚ) * delta⟩
    else
      ⟨0, 0, (width : ℚ), (height : ℚ)⟩
  else
    ⟨0, 0, (width : ℚ), (height : ℚ)⟩

/-- GL texture filter constant. -/
def GL_LINEAR : ℕ := 0x2601

/-- GL texture filter constant. -/
def GL_NEAREST : ℕ := 0x2600

/-- The `gl_t` instance data: the stored creation-time vsync preference,
the texture id and the chosen filter. -/
structure gl_t where
  vsync : Bool
  texture : ℕ
  tex_filter : ℕ
deriving DecidableEq, Repr

/-- The GLFW-side state the driver manipulates: the swap interval
(`glfwSwapInterval`), the window title (`glfwSetWindowTitle`), and the
file-scope `keep_aspect` global of `gl.c`. -/
structure glfw_state where
  swap_interval : ℕ
  window_title : Option String
  keep_aspect : Bool
deriving DecidableEq, Repr

/-- The fields of `video_info_t` that `gl_init` reads. -/
structure video_info where
  width : ℕ
  height : ℕ
  fullscreen : Bool
  vsync : Bool
  force_aspect : Bool
  smooth : Bool
deriving DecidableEq, Repr

/-- Creation `gl_init` (state effects relevant here, for a build without
`HAVE_CG`): store `keep_aspect`, pick the texture filter, open the window
(`open_ok` stands for the `glfwOpenWindow` result; a failure returns
`NULL`), force the swap interval from the vsync request, set the title,
and record `vsync` in the instance. -/
def gl_init (video : video_info) (open_ok : Bool) (g : glfw_state) :
    Option gl_t × glfw_state :=
  let g1 : glfw_state := { g with keep_aspect := video.force_aspect }
  if open_ok then
    (some
      { vsync := video.vsync
        texture := 0
        tex_filter := if video.smooth then GL_LINEAR else GL_NEAREST },
      { g1 with
        swap_interval := if video.vsync then 1 else 0
        window_title := some "SSNES" })
  else
    (none, g1)

/-- Toggle `gl_set_nonblock_state`: when the instance was created with vsync,
set the swap interval to 0 (non-block on) or 1 (non-block off); the
instance data is not touched. -/
def gl_set_nonblock_state (gl : gl_t) (state : Bool) (g : glfw_state) :
    gl_t × glfw_state :=
  if gl.vsync then
    (gl, { g with swap_interval := if state then 0 else 1 })
  else
    (gl, g)

/-- A `struct timeval`. -/
structure timeval where
  tv_sec : ℤ
  tv_usec : ℤ
deriving DecidableEq, Repr

/-- Conversion `tv_to_fps`: frames divided by the elapsed seconds between the two
timestamps. -/
def tv_to_fps (tv new_tv : timeval) (frames : ℤ) : ℚ :=
  (frames : ℚ) /
    (((new_tv.tv_sec - tv.tv_sec : ℤ) : ℚ) +
      ((new_tv.tv_usec - tv.tv_usec : ℤ) : ℚ) / 1000000)

/-- The `static` state of `show_fps`: the frame counter and the start
timestamp of the current sample window. -/
structure FpsState where
  frames : ℕ
  tv : timeval
deriving DecidableEq, Repr

/-- Accounting `show_fps`: on the very first call record the window start; on every
call whose pre-increment counter is a non-zero multiple of 180, republish
(the `glfwSetWindowTitle` of the formatted string is modelled as the
published pair of FPS value and counter) and restart the sample window;
always increment the counter.  `now` stands for the `gettimeofday`
reading during the call. -/
def show_fps (st : FpsState) (now : timeval) : FpsState × Option (ℚ × ℕ) :=
  let tv0 := if st.frames = 0 then now else st.tv
  if st.frames % 180 = 0 ∧ 0 < st.frames then
    (⟨st.frames + 1, now⟩, some (tv_to_fps tv0 now 180, st.frames))
  else
    (⟨st.frames + 1, tv0⟩, none)

/-- A synthetic timestamp source advancing by `δ` microseconds per
frame. -/
def fpsClock (δ : ℤ) (k : ℕ) : timeval :=
  ⟨0, (k : ℤ) * δ⟩

/-- Iteration of `n` successive frame submissions through `show_fps`, starting from
the initial static state (`frames = 0`), with the `k`-th submission
timestamped `fpsClock δ k`; collects the published `(counter, fps)`
samples. -/
def run_show_fps (δ : ℤ) : ℕ → FpsState × List (ℕ × ℚ)
  | 0 => (⟨0, ⟨0, 0⟩⟩, [])
  | n + 1 =>
      let (st, pubs) := run_show_fps δ n
      match show_fps st (fpsClock δ n) with
      | (st1, some (f, k)) => (st1, pubs ++ [(k, f)])
      | (st1, none) => (st1, pubs)

/-- GL commands issued by `gl_frame`, in order. -/
inductive GlCmd where
  | clear
  | pixel_store_row_length (n : ℤ)
  | tex_image_2d (w h : ℤ) (frame : List ℕ)
  | draw_arrays
  | set_window_title
  | swap_buffers
deriving DecidableEq, Repr

/-- Submission `gl_frame` (for a build without `HAVE_CG`): clear, set the unpack row
length to `pitch >> 1`, upload the frame, draw the quad, run the FPS
accounting (which may retitle the window), swap, and return `true`. -/
def gl_frame (st : FpsState) (now : timeval) (frame : List ℕ)
    (width height : ℤ) (pitch : ℕ) : FpsState × List GlCmd × Bool :=
  let (st1, pub) := show_fps st now
  (st1,
    [GlCmd.clear, GlCmd.pixel_store_row_length ((pitch >>> 1 : ℕ) : ℤ),
      GlCmd.tex_image_2d width height frame, GlCmd.draw_arrays] ++
      (match pub with
       | some _ => [GlCmd.set_window_title]
       | none => []) ++
      [GlCmd.swap_buffers],
    true)

/- ## Helper lemmas -/

/-- The identifier-enumeration loop visits exactly the descriptors from
index `i` on. -/
theorem identsFrom_eq (ds : List camera_driver_t) (i : ℕ) :
    identsFrom ds i = (ds.drop i).map camera_driver_t.ident := by
  rw [identsFrom]
  split
  · next h =>
      have hle : ds.length ≤ i := by
        by_contra hc
        push_neg at hc
        simp [camera_driver_find_handle, List.getElem?_eq_getElem hc] at h
      rw [List.drop_eq_nil_of_le hle, List.map_nil]
  · next d h =>
      simp only [camera_driver_find_handle] at h
      obtain ⟨hi, hd⟩ := List.getElem?_eq_some.mp h
      rw [identsFrom_eq ds (i + 1), List.drop_eq_getElem_cons hi, List.map_cons,
        hd]
termination_by ds.length - i
decreasing_by omega

/-- Diagnostics of the selector never contain a backend-init event. -/
theorem backend_init_not_mem_find_events (ds : List camera_driver_t)
    (name : String) :
    CamEvent.backend_init ∉ (find_camera_driver ds name).events := by
  rw [find_camera_driver]
  cases find_driver_index ds name <;> simp

/-- Unfolding of `init_camera` from an idle state once the result of the
selector is known. -/
theorem init_camera_eq_of_find (drivers : List camera_driver_t)
    (s : camera_settings) (cb : retro_camera_callback) (st : driver_state)
    (drv : camera_driver_t) (hd : st.camera_data = none)
    (hfind : (find_camera_driver drivers s.driver).camera = some drv) :
    init_camera drivers s cb st =
      ({ st with
          camera := some drv
          camera_data := drv.init (camera_device_arg s) cb.caps
            (camera_width_arg s cb) (camera_height_arg s cb)
          camera_active :=
            if (drv.init (camera_device_arg s) cb.caps
                (camera_width_arg s cb) (camera_height_arg s cb)).isNone then
              false
            else st.camera_active },
        (CamEvent.find_driver :: (find_camera_driver drivers s.driver).events) ++
          [CamEvent.backend_init] ++
          (if (drv.init (camera_device_arg s) cb.caps
              (camera_width_arg s cb) (camera_height_arg s cb)).isNone then
            [CamEvent.err_init_failed]
          else []) ++
          (if cb.initialized then [CamEvent.initialized_cb] else [])) := by
  rw [init_camera]
  rw [hd]
  simp only [Option.isSome_none, Bool.false_eq_true, if_false]
  rw [hfind]

/-- First-ever call of `show_fps`: record the window start, publish
nothing. -/
theorem show_fps_zero (tv now : timeval) :
    show_fps ⟨0, tv⟩ now = (⟨1, now⟩, none) := by
  simp [show_fps]

/-- A call at a positive multiple of 180 publishes the sample over the
stored window start and restarts the window. -/
theorem show_fps_publish (n : ℕ) (hn : n % 180 = 0) (h0 : 0 < n)
    (tv now : timeval) :
    show_fps ⟨n, tv⟩ now = (⟨n + 1, now⟩, some (tv_to_fps tv now 180, n)) := by
  have hne : n ≠ 0 := Nat.pos_iff_ne_zero.mp h0
  simp [show_fps, hn, h0, hne]

/-- Any other call only advances the counter. -/
theorem show_fps_skip (n : ℕ) (hn : ¬(n % 180 = 0 ∧ 0 < n)) (hne : n ≠ 0)
    (tv now : timeval) :
    show_fps ⟨n, tv⟩ now = (⟨n + 1, tv⟩, none) := by
  simp only [show_fps, if_neg hne, if_neg hn]

/-- Invariant of the synthetic run: after `n` submissions the counter is
`n`, the stored window start is the timestamp of the most recent
publication (or the very first submission), and the published samples are
exactly the positive multiples of 180 below `n`, each computed over the
previous 180-frame window. -/
theorem run_show_fps_spec (δ : ℤ) (n : ℕ) :
    (run_show_fps δ n).1.frames = n ∧
    (run_show_fps δ n).1.tv = fpsClock δ (180 * ((n - 1) / 180)) ∧
    (run_show_fps δ n).2 =
      ((List.range n).filter (fun k => k % 180 == 0 && k != 0)).map
        (fun k => (k, tv_to_fps (fpsClock δ (k - 180)) (fpsClock δ k) 180)) := by
  induction n with
  | zero =>
      refine ⟨rfl, ?_, rfl⟩
      simp [run_show_fps, fpsClock]
  | succ n ih =>
      obtain ⟨ihf, ihtv, ihp⟩ := ih
      rw [run_show_fps]
      rcases hr : run_show_fps δ n with ⟨st, pubs⟩
      rw [hr] at ihf ihtv ihp
      have hst : st = ⟨n, fpsClock δ (180 * ((n - 1) / 180))⟩ := by
        obtain ⟨f, tv⟩ := st
        simp only at ihf ihtv
        rw [ihf, ihtv]
      subst hst
      subst ihp
      dsimp only
      by_cases h0 : n = 0
      · subst h0
        rw [show_fps_zero]
        refine ⟨rfl, ?_, ?_⟩
        · norm_num
        · simp
      · by_cases hpub : n % 180 = 0
        · rw [show_fps_publish n hpub (Nat.pos_of_ne_zero h0)]
          refine ⟨rfl, ?_, ?_⟩
          · have : 180 * ((n + 1 - 1) / 180) = n := by omega
            rw [this]
          · rw [List.range_succ, List.filter_append, List.map_append]
            have hcond : ((n % 180 == 0) && (n != 0)) = true := by
              simp [hpub, h0]
            have h180 : 180 * ((n - 1) / 180) = n - 180 := by omega
            simp only [List.filter_cons, List.filter_nil, hcond, if_true,
              List.map_cons, List.map_nil, h180]
        · rw [show_fps_skip n (by simp [hpub]) h0]
          refine ⟨rfl, ?_, ?_⟩
          · have : 180 * ((n + 1 - 1) / 180) = 180 * ((n - 1) / 180) := by
              omega
            rw [this]
          · have hcond : ((n % 180 == 0) && (n != 0)) = false := by
              simp [hpub]
            simp only [List.range_succ, List.filter_append, List.filter_cons,
              List.filter_nil, hcond, List.append_nil, List.map_append]
            simp

/- ## Claim theorems -/

/-- C2: with a live handle and a selected driver, `uninit_camera` clears
the handle and its event trace is the `deinitialized` notification (when
present) followed — strictly after it — by the free operation of the
descriptor (when present); with no handle it is a pure no-op. -/
theorem c2_uninit_notifies_before_free :
    (∀ (cb : retro_camera_callback) (st : driver_state) (h : ℕ)
        (drv : camera_driver_t),
        st.camera_data = some h → st.camera = some drv →
        (uninit_camera cb st).1.camera_data = none ∧
        (uninit_camera cb st).2 =
          (if cb.deinitialized then [CamEvent.deinitialized_cb] else []) ++
            (if drv.free then [CamEvent.free_op] else [])) ∧
    (∀ (cb : retro_camera_callback) (st : driver_state),
        st.camera_data = none → uninit_camera cb st = (st, [])) := by
  constructor
  · intro cb st h drv hd hc
    obtain ⟨c, d, a⟩ := st
    simp only at hd hc
    subst hd hc
    simp [uninit_camera]
  · intro cb st hd
    obtain ⟨c, d, a⟩ := st
    simp only at hd
    subst hd
    cases c <;> simp [uninit_camera]

/-- C2 witness: a concrete teardown with callback and free operation both
present. -/
theorem c2_uninit_witness :
    (uninit_camera ⟨0, 640, 480, true, true⟩
        ⟨some camera_null, some 0, true⟩).1.camera_data = none ∧
    (uninit_camera ⟨0, 640, 480, true, true⟩
        ⟨some camera_null, some 0, true⟩).2 =
      (if (⟨0, 640, 480, true, true⟩ : retro_camera_callback).deinitialized then
        [CamEvent.deinitialized_cb]
      else []) ++
        (if camera_null.free then [CamEvent.free_op] else []) :=
  c2_uninit_notifies_before_free.1 ⟨0, 640, 480, true, true⟩
    ⟨some camera_null, some 0, true⟩ 0 camera_null rfl rfl

/-- C3: `init_camera` with a live handle is a pure no-op (no driver
resolution, no backend init); from an idle state whose backend init
succeeds, the two-call sequence performs exactly one backend allocation
and keeps exactly one live handle. -/
theorem c3_double_init_single_allocation :
    (∀ (drivers : List camera_driver_t) (s : camera_settings)
        (cb : retro_camera_callback) (st : driver_state) (h : ℕ),
        st.camera_data = some h → init_camera drivers s cb st = (st, [])) ∧
    (∀ (drivers : List camera_driver_t) (s : camera_settings)
        (cb : retro_camera_callback) (st : driver_state)
        (drv : camera_driver_t) (hnd : ℕ),
        st.camera_data = none →
        (find_camera_driver drivers s.driver).camera = some drv →
        drv.init (camera_device_arg s) cb.caps (camera_width_arg s cb)
            (camera_height_arg s cb) = some hnd →
        (init_camera drivers s cb st).1.camera_data = some hnd ∧
        ((init_camera drivers s cb st).2).count CamEvent.backend_init = 1 ∧
        init_camera drivers s cb (init_camera drivers s cb st).1 =
          ((init_camera drivers s cb st).1, []) ∧
        ((init_camera drivers s cb st).2 ++
            (init_camera drivers s cb (init_camera drivers s cb st).1).2).count
          CamEvent.backend_init = 1) := by
  have noop : ∀ (drivers : List camera_driver_t) (s : camera_settings)
      (cb : retro_camera_callback) (st : driver_state) (h : ℕ),
      st.camera_data = some h → init_camera drivers s cb st = (st, []) := by
    intro drivers s cb st h hd
    rw [init_camera, hd]
    rfl
  refine ⟨noop, ?_⟩
  intro drivers s cb st drv hnd hd hfind hinit
  rw [init_camera_eq_of_find drivers s cb st drv hd hfind, hinit]
  simp only [Option.isNone_some, Bool.false_eq_true, if_false]
  refine ⟨by trivial, ?_, ?_, ?_⟩
  · have hno := backend_init_not_mem_find_events drivers s.driver
    simp [List.count_append, List.count_eq_zero.mpr hno]
    cases cb.initialized <;> simp
  · exact noop drivers s cb _ hnd rfl
  · rw [noop drivers s cb _ hnd rfl]
    have hno := backend_init_not_mem_find_events drivers s.driver
    simp [List.count_append, List.count_eq_zero.mpr hno]
    cases cb.initialized <;> simp

/-- C3 witness: two concrete calls against the null driver. -/
theorem c3_double_init_witness :
    (init_camera [camera_null] ⟨"null", "", true, 0, 0⟩ ⟨0, 640, 480, true, true⟩
        ⟨none, none, true⟩).1.camera_data = some 0 ∧
    ((init_camera [camera_null] ⟨"null", "", true, 0, 0⟩
        ⟨0, 640, 480, true, true⟩ ⟨none, none, true⟩).2).count
      CamEvent.backend_init = 1 ∧
    init_camera [camera_null] ⟨"null", "", true, 0, 0⟩ ⟨0, 640, 480, true, true⟩
        (init_camera [camera_null] ⟨"null", "", true, 0, 0⟩
          ⟨0, 640, 480, true, true⟩ ⟨none, none, true⟩).1 =
      ((init_camera [camera_null] ⟨"null", "", true, 0, 0⟩
          ⟨0, 640, 480, true, true⟩ ⟨none, none, true⟩).1, []) ∧
    ((init_camera [camera_null] ⟨"null", "", true, 0, 0⟩
          ⟨0, 640, 480, true, true⟩ ⟨none, none, true⟩).2 ++
        (init_camera [camera_null] ⟨"null", "", true, 0, 0⟩
            ⟨0, 640, 480, true, true⟩
            (init_camera [camera_null] ⟨"null", "", true, 0, 0⟩
              ⟨0, 640, 480, true, true⟩ ⟨none, none, true⟩).1).2).count
      CamEvent.backend_init = 1 :=
  c3_double_init_single_allocation.2 [camera_null] ⟨"null", "", true, 0, 0⟩
    ⟨0, 640, 480, true, true⟩ ⟨none, none, true⟩ camera_null 0 rfl rfl rfl

/-- C4 (amended): from an idle state, when the resolved backend init
fails, no handle is created, the kind is marked inactive — but the
`initialized` notification (when present) is still issued; when backend
init succeeds, the handle is stored and the notification (when present)
is issued as well. -/
theorem c4_init_failure_inactive_but_notifies :
    (∀ (drivers : List camera_driver_t) (s : camera_settings)
        (cb : retro_camera_callback) (st : driver_state)
        (drv : camera_driver_t),
        st.camera_data = none →
        (find_camera_driver drivers s.driver).camera = some drv →
        drv.init (camera_device_arg s) cb.caps (camera_width_arg s cb)
            (camera_height_arg s cb) = none →
        (init_camera drivers s cb st).1.camera_data = none ∧
        (init_camera drivers s cb st).1.camera_active = false ∧
        (cb.initialized = true →
          CamEvent.initialized_cb ∈ (init_camera drivers s cb st).2)) ∧
    (∀ (drivers : List camera_driver_t) (s : camera_settings)
        (cb : retro_camera_callback) (st : driver_state)
        (drv : camera_driver_t) (hnd : ℕ),
        st.camera_data = none →
        (find_camera_driver drivers s.driver).camera = some drv →
        drv.init (camera_device_arg s) cb.caps (camera_width_arg s cb)
            (camera_height_arg s cb) = some hnd →
        (init_camera drivers s cb st).1.camera_data = some hnd ∧
        (init_camera drivers s cb st).1.camera_active = st.camera_active ∧
        (cb.initialized = true →
          CamEvent.initialized_cb ∈ (init_camera drivers s cb st).2)) := by
  constructor
  · intro drivers s cb st drv hd hfind hinit
    rw [init_camera_eq_of_find drivers s cb st drv hd hfind, hinit]
    refine ⟨rfl, rfl, ?_⟩
    intro hcb
    simp [hcb]
  · intro drivers s cb st drv hnd hd hfind hinit
    rw [init_camera_eq_of_find drivers s cb st drv hd hfind, hinit]
    refine ⟨rfl, rfl, ?_⟩
    intro hcb
    simp [hcb]

/-- C4 counterexample to the claim as stated: a failing backend init with
the notification callback present — the code still issues the
`initialized` notification even though no handle was created. -/
theorem c4_counterexample_notified_on_failure :
    (init_camera [failing_camera_driver] ⟨"fail", "", true, 0, 0⟩
        ⟨0, 640, 480, true, true⟩ ⟨none, none, true⟩).1.camera_data = none ∧
    CamEvent.initialized_cb ∈
      (init_camera [failing_camera_driver] ⟨"fail", "", true, 0, 0⟩
        ⟨0, 640, 480, true, true⟩ ⟨none, none, true⟩).2 := by
  constructor <;> decide

/-- C4 witness: the amended failure case at the concrete failing
driver. -/
theorem c4_init_failure_witness :
    (init_camera [failing_camera_driver] ⟨"fail", "", false, 0, 0⟩
        ⟨0, 320, 240, true, false⟩ ⟨none, none, true⟩).1.camera_data = none ∧
    (init_camera [failing_camera_driver] ⟨"fail", "", false, 0, 0⟩
        ⟨0, 320, 240, true, false⟩ ⟨none, none, true⟩).1.camera_active = false ∧
    ((⟨0, 320, 240, true, false⟩ : retro_camera_callback).initialized = true →
      CamEvent.initialized_cb ∈
        (init_camera [failing_camera_driver] ⟨"fail", "", false, 0, 0⟩
          ⟨0, 320, 240, true, false⟩ ⟨none, none, true⟩).2) :=
  c4_init_failure_inactive_but_notifies.1 [failing_camera_driver]
    ⟨"fail", "", false, 0, 0⟩ ⟨0, 320, 240, true, false⟩ ⟨none, none, true⟩
    failing_camera_driver rfl rfl rfl

/-- C5: an unknown (or empty) configured name selects registry index 0
and the diagnostics enumerate every registered identifier; the unknown
and the empty name select the same descriptor.  Selection is a pure
function of the immutable registry. -/
theorem c5_unknown_name_defaults_to_index_zero :
    ∀ (drivers : List camera_driver_t) (name : String),
      (∀ d ∈ drivers, d.ident ≠ name) →
      (find_camera_driver drivers name).camera =
        camera_driver_find_handle drivers 0 ∧
      (find_camera_driver drivers "").camera =
        camera_driver_find_handle drivers 0 ∧
      (∀ d ∈ drivers,
        CamEvent.log_ident d.ident ∈ (find_camera_driver drivers name).events) := by
  intro drivers name hn
  have hidx : find_driver_index drivers name = none := by
    rw [find_driver_index]
    split
    · rfl
    · rw [List.findIdx?_eq_none_iff]
      intro d hd
      simp [hn d hd]
  have hidx0 : find_driver_index drivers "" = none := by
    rw [find_driver_index]
    rfl
  refine ⟨?_, ?_, ?_⟩
  · rw [find_camera_driver, hidx]
  · rw [find_camera_driver, hidx0]
  · intro d hd
    rw [find_camera_driver, hidx]
    simp only [List.mem_cons, List.mem_append, List.mem_map]
    refine Or.inr (Or.inr (Or.inl ⟨d.ident, ?_, rfl⟩))
    rw [identsFrom_eq, List.drop_zero]
    exact List.mem_map.mpr ⟨d, hd, rfl⟩

/-- C5 witness: the single-entry registry with an unknown name. -/
theorem c5_unknown_name_witness :
    (find_camera_driver [camera_null] "foo").camera =
      camera_driver_find_handle [camera_null] 0 ∧
    (find_camera_driver [camera_null] "").camera =
      camera_driver_find_handle [camera_null] 0 ∧
    (∀ d ∈ [camera_null],
      CamEvent.log_ident d.ident ∈ (find_camera_driver [camera_null] "foo").events) :=
  c5_unknown_name_defaults_to_index_zero [camera_null] "foo"
    (by intro d hd; simp at hd; subst hd; decide)

/-- C6: for every compile-time configuration (and whatever the platform
backends are), the registry is non-empty and the enumerated identifier
list has length at least 1 with the identifier of the null driver last. -/
theorem c6_ident_list_ends_with_null_driver :
    ∀ (ext : external_camera_drivers) (cfg : build_config),
      camera_drivers ext cfg ≠ [] ∧
      1 ≤ (camera_driver_ident_list (camera_drivers ext cfg)).length ∧
      (camera_driver_ident_list (camera_drivers ext cfg)).getLast? =
        some camera_null.ident := by
  intro ext cfg
  rw [camera_driver_ident_list, identsFrom_eq, List.drop_zero]
  obtain ⟨b1, b2, b3, b4, b5⟩ := cfg
  cases b1 <;> cases b2 <;> cases b3 <;> cases b4 <;> cases b5 <;>
    simp [camera_drivers]

/-- C7: with a selected driver, a live handle and a start operation, a
disabled permission flag makes `driver_camera_start` fail with the
distinct "explicitly disabled" message, while an enabled flag delegates
to the backend start; without a live handle the failure is silent, so the
two failure classes are distinguishable. -/
theorem c7_start_disabled_distinct_failure :
    (∀ (s : camera_settings) (st : driver_state) (drv : camera_driver_t)
        (d : ℕ) (startOp : ℕ → Bool),
        st.camera = some drv → st.camera_data = some d →
        drv.start = some startOp →
        (s.allow = false →
          driver_camera_start s st = (false, [CamEvent.msg_disabled])) ∧
        (s.allow = true → driver_camera_start s st = (startOp d, []))) ∧
    (∀ (s : camera_settings) (st : driver_state),
        st.camera_data = none → driver_camera_start s st = (false, [])) := by
  constructor
  · intro s st drv d startOp hc hd hs
    obtain ⟨c, dd, a⟩ := st
    simp only at hc hd
    subst hc hd
    constructor <;> intro hal <;> simp [driver_camera_start, hs, hal]
  · intro s st hd
    obtain ⟨c, dd, a⟩ := st
    simp only at hd
    subst hd
    cases c <;> simp [driver_camera_start]

/-- C1 (amended): the aspect-locked viewport follows the branch formulas
of the specification, with the aspect comparison performed by the `(int)`
truncation by the `(int)` cast of `aspect * 1000` (not by rounding): horizontal
letterbox when the device is classified wider, the symmetric vertical
formula when narrower, the full surface when the truncated values are
equal; in particular 800×600 keeps the full surface, 1920×600 letterboxes
horizontally with positive origin-x and a viewport narrower than 1920,
and 600×1200 letterboxes vertically. -/
theorem c1_resize_truncated_aspect_compare :
    (∀ (w h : ℤ),
      (c_int_of_float (((w : ℚ) / (h : ℚ)) * 1000) >
          c_int_of_float (desired_aspect * 1000) →
        resize true w h =
          ⟨(w : ℚ) *
              (1/2 - ((desired_aspect / ((w : ℚ) / (h : ℚ)) - 1) / 2 + 1/2)),
            0,
            2 * (w : ℚ) *
              ((desired_aspect / ((w : ℚ) / (h : ℚ)) - 1) / 2 + 1/2),
            (h : ℚ)⟩) ∧
      (c_int_of_float (((w : ℚ) / (h : ℚ)) * 1000) <
          c_int_of_float (desired_aspect * 1000) →
        resize true w h =
          ⟨0,
            (h : ℚ) *
              (1/2 - ((((w : ℚ) / (h : ℚ)) / desired_aspect - 1) / 2 + 1/2)),
            (w : ℚ),
            2 * (h : ℚ) *
              ((((w : ℚ) / (h : ℚ)) / desired_aspect - 1) / 2 + 1/2)⟩) ∧
      (c_int_of_float (((w : ℚ) / (h : ℚ)) * 1000) =
          c_int_of_float (desired_aspect * 1000) →
        resize true w h = ⟨0, 0, (w : ℚ), (h : ℚ)⟩)) ∧
    resize true 800 600 = ⟨0, 0, 800, 600⟩ ∧
    0 < (resize true 1920 600).x ∧ (resize true 1920 600).w < 1920 ∧
    (resize true 1920 600).y = 0 ∧ (resize true 1920 600).h = 600 ∧
    (resize true 600 1200).x = 0 ∧ (resize true 600 1200).w = 600 ∧
    0 < (resize true 600 1200).y ∧ (resize true 600 1200).h < 1200 := by
  refine ⟨?_, ?_, ?_, ?_, ?_, ?_, ?_, ?_, ?_, ?_⟩
  · intro w h
    refine ⟨?_, ?_, ?_⟩
    · intro hgt
      rw [resize]
      simp only [if_pos hgt, if_true]
    · intro hlt
      rw [resize]
      simp only [if_neg (by omega : ¬ (c_int_of_float (((w : ℚ) / (h : ℚ)) * 1000) >
          c_int_of_float (desired_aspect * 1000))), if_pos hlt, if_true]
    · intro heq
      rw [resize]
      simp only [heq, gt_iff_lt, lt_irrefl, if_false, if_true]
  all_goals norm_num [resize, c_int_of_float, desired_aspect]

/-- C1 counterexample to the claim as stated: at 1067×800 the rounded
comparison of the claim classifies the device as wider (round(1333.75) =
1334 > 1333) and letterboxes, while the truncating comparison of the code
classifies it as equal and keeps the full surface. -/
theorem c1_round_vs_truncate_counterexample :
    resize true 1067 800 ≠ resize_spec_round true 1067 800 := by
  have h1 : resize true 1067 800 = ⟨0, 0, 1067, 800⟩ := by
    norm_num [resize, c_int_of_float, desired_aspect]
  have h2 : (resize_spec_round true 1067 800).x = 1/6 := by
    have hr : round (((1067 : ℤ) : ℚ) / ((800 : ℤ) : ℚ) * 1000) = 1334 := by
      rw [round_eq]
      norm_num
    have hd : round (desired_aspect * 1000) = 1333 := by
      rw [round_eq, desired_aspect]
      norm_num
    simp only [resize_spec_round]
    rw [hr, hd]
    norm_num [desired_aspect]
  intro h
  rw [← h, h1] at h2
  norm_num at h2

/-- C1 witness: the horizontal-letterbox branch at 1920×600. -/
theorem c1_resize_witness :
    resize true 1920 600 =
      ⟨(1920 : ℚ) *
          (1/2 - ((desired_aspect / (((1920 : ℤ) : ℚ) / ((600 : ℤ) : ℚ)) - 1) / 2 +
            1/2)),
        0,
        2 * (1920 : ℚ) *
          ((desired_aspect / (((1920 : ℤ) : ℚ) / ((600 : ℤ) : ℚ)) - 1) / 2 + 1/2),
        (600 : ℚ)⟩ :=
  (c1_resize_truncated_aspect_compare.1 1920 600).1
    (by norm_num [c_int_of_float, desired_aspect])

/-- C8: toggling non-block on a vsync-created surface drives the swap
interval to 0 and back to 1 without touching the instance (so the stored
`vsync` creation-time preference is unchanged), and the round trip
restores the interval that `gl_init` establishes for a vsync request. -/
theorem c8_nonblock_round_trip :
    (∀ (gl : gl_t) (g : glfw_state), gl.vsync = true →
      gl_set_nonblock_state gl true g = (gl, { g with swap_interval := 0 }) ∧
      gl_set_nonblock_state gl false g = (gl, { g with swap_interval := 1 }) ∧
      (gl_set_nonblock_state (gl_set_nonblock_state gl true g).1 false
          (gl_set_nonblock_state gl true g).2).1 = gl ∧
      (gl_set_nonblock_state (gl_set_nonblock_state gl true g).1 false
          (gl_set_nonblock_state gl true g).2).2.swap_interval = 1) ∧
    (∀ (video : video_info) (g : glfw_state) (glr : gl_t),
      video.vsync = true →
      (gl_init video true g).2.swap_interval = 1 ∧
      ((gl_init video true g).1 = some glr → glr.vsync = true)) := by
  constructor
  · intro gl g hv
    refine ⟨?_, ?_, ?_, ?_⟩ <;> simp [gl_set_nonblock_state, hv]
  · intro video g glr hv
    constructor
    · simp [gl_init, hv]
    · intro h
      simp only [gl_init, if_true] at h
      rw [Option.some.injEq] at h
      rw [← h]
      simp [hv]

/-- C8 witness: a concrete vsync-created instance. -/
theorem c8_nonblock_witness :
    gl_set_nonblock_state ⟨true, 0, GL_LINEAR⟩ true ⟨1, none, true⟩ =
      (⟨true, 0, GL_LINEAR⟩,
        { (⟨1, none, true⟩ : glfw_state) with swap_interval := 0 }) ∧
    gl_set_nonblock_state ⟨true, 0, GL_LINEAR⟩ false ⟨1, none, true⟩ =
      (⟨true, 0, GL_LINEAR⟩,
        { (⟨1, none, true⟩ : glfw_state) with swap_interval := 1 }) ∧
    (gl_set_nonblock_state
        (gl_set_nonblock_state ⟨true, 0, GL_LINEAR⟩ true ⟨1, none, true⟩).1 false
        (gl_set_nonblock_state ⟨true, 0, GL_LINEAR⟩ true ⟨1, none, true⟩).2).1 =
      ⟨true, 0, GL_LINEAR⟩ ∧
    (gl_set_nonblock_state
        (gl_set_nonblock_state ⟨true, 0, GL_LINEAR⟩ true ⟨1, none, true⟩).1 false
        (gl_set_nonblock_state ⟨true, 0, GL_LINEAR⟩ true
          ⟨1, none, true⟩).2).2.swap_interval = 1 :=
  c8_nonblock_round_trip.1 ⟨true, 0, GL_LINEAR⟩ ⟨1, none, true⟩ rfl

/-- C9: every submission advances the frame counter by exactly 1; a
sample is published exactly when the pre-increment counter is a non-zero
multiple of 180, and then it is `tv_to_fps` of the stored window start
and the current timestamp over 180 frames; over a synthetic timestamp
source advancing by `δ` microseconds per frame, every published FPS value
equals 180 divided by the elapsed seconds (180·δ microseconds) of the
previous sample window. -/
theorem c9_fps_every_180_frames :
    (∀ (st : FpsState) (now : timeval),
      (show_fps st now).1.frames = st.frames + 1 ∧
      ((show_fps st now).2.isSome ↔ (st.frames % 180 = 0 ∧ 0 < st.frames)) ∧
      (st.frames % 180 = 0 → 0 < st.frames →
        (show_fps st now).2 = some (tv_to_fps st.tv now 180, st.frames))) ∧
    (∀ δ : ℤ, 0 < δ → ∀ n : ℕ,
      (run_show_fps δ n).1.frames = n ∧
      (run_show_fps δ n).2 =
        ((List.range n).filter (fun k => k % 180 == 0 && k != 0)).map
          (fun k => (k, 180 / (((180 : ℚ) * (δ : ℚ)) / 1000000)))) := by
  constructor
  · intro st now
    obtain ⟨f, tv⟩ := st
    by_cases hf0 : f = 0
    · subst hf0
      rw [show_fps_zero]
      simp
    · by_cases hp : f % 180 = 0
      · rw [show_fps_publish f hp (Nat.pos_of_ne_zero hf0)]
        simp [hp, Nat.pos_of_ne_zero hf0]
      · rw [show_fps_skip f (by simp [hp]) hf0]
        simp [hp]
  · intro δ hδ n
    obtain ⟨hf, -, hp⟩ := run_show_fps_spec δ n
    refine ⟨hf, ?_⟩
    rw [hp]
    apply List.map_congr_left
    intro k hk
    rw [List.mem_filter] at hk
    have hk180 : k % 180 = 0 ∧ k ≠ 0 := by simpa using hk.2
    have hge : 180 ≤ k := by omega
    have hcast : ((k - 180 : ℕ) : ℤ) = (k : ℤ) - 180 := by
      push_cast [hge]
      ring
    simp only [tv_to_fps, fpsClock, hcast, Prod.mk.injEq, true_and]
    push_cast
    ring_nf

/-- C9 witness: 181 submissions at one microsecond per frame. -/
theorem c9_fps_witness :
    (run_show_fps 1 181).1.frames = 181 ∧
    (run_show_fps 1 181).2 =
      ((List.range 181).filter (fun k => k % 180 == 0 && k != 0)).map
        (fun k => (k, 180 / (((180 : ℚ) * ((1 : ℤ) : ℚ)) / 1000000))) :=
  c9_fps_every_180_frames.2 1 (by norm_num) 181

/-- C10: frame submission always reports success. -/
theorem c10_gl_frame_returns_true :
    ∀ (st : FpsState) (now : timeval) (frame : List ℕ) (width height : ℤ)
      (pitch : ℕ),
      (gl_frame st now frame width height pitch).2.2 = true := by
  intro st now frame width height pitch
  rcases hs : show_fps st now with ⟨st1, pub⟩
  simp [gl_frame, hs]

/-- C7 witness: the null driver with permission off. -/
theorem c7_start_disabled_witness :
    driver_camera_start ⟨"null", "", false, 0, 0⟩
      ⟨some camera_null, some 0, true⟩ = (false, [CamEvent.msg_disabled]) :=
  (c7_start_disabled_distinct_failure.1 ⟨"null", "", false, 0, 0⟩
    ⟨some camera_null, some 0, true⟩ camera_null 0 (fun _ => true)
    rfl rfl rfl).1 rfl
